import Mathlib

/-!
Shallow embedding of the `notify` Go package: the notification data model
(`Message`, `Attachment`, `Field`, `NotificationError`), the provider
capability (`Notifier`), the manager/registry with its targeted send,
synchronous broadcast and concurrent broadcast, and the two concrete
providers (Slack, Telegram) up to their abstracted network calls.

Provider sends return `Option ε` where `none` models a nil Go `error`
(success) and `some e` models a returned error.  The Go context value is
passed through verbatim as an opaque type parameter `Ctx`.  The Go map
`map[string]Notifier` is embedded as an association list with unique keys
(uniqueness is maintained by `Register`, which refuses duplicates).
-/

namespace notify

/-- `Field` from the types file: a key-value field in an attachment. -/
structure Field where
  Title : String
  Value : String
  Short : Bool
deriving DecidableEq

/-- `Attachment` from the types file: a message attachment. -/
structure Attachment where
  Title : String
  Text : String
  ImageURL : String
  Color : String
  Fields : List Field
  Footer : String
  FooterIcon : String
deriving DecidableEq

/-- `Message` from the types file.  `Metadata` values are opaque to every
operation embedded here; they are modelled as strings. -/
structure Message where
  Text : String
  Title : String
  Priority : String
  Channel : String
  Attachments : List Attachment
  Metadata : List (String × String)
deriving DecidableEq

/-- Priority constants from the types file. -/
def PriorityHigh : String := "high"

/-- Priority constant `normal`. -/
def PriorityNormal : String := "normal"

/-- Priority constant `low`. -/
def PriorityLow : String := "low"

/-- `NotificationError` from the types file: provider tag, message, and an
optional wrapped cause (the Go `Err error` field, modelled as a string). -/
structure NotificationError where
  Provider : String
  Message : String
  Err : Option String
deriving DecidableEq

/-- The `Notifier` interface: a name plus the two send capabilities.
`none` models a nil returned error (success). -/
structure Notifier (ε : Type) (Ctx : Type) where
  name : String
  send : Ctx → String → Option ε
  sendWithOptions : Ctx → Message → Option ε

/-- The `Manager` struct: the registry map `notifiers map[string]Notifier`,
embedded as an association list.  The `sync.RWMutex` has no functional
content; its acquisition pattern is embedded separately as lock-event
traces (see `MEvent` below). -/
structure Manager (ε : Type) (Ctx : Type) where
  notifiers : List (String × Notifier ε Ctx)

/-- `NewManager` creates a manager with an empty registry. -/
def NewManager (ε Ctx : Type) : Manager ε Ctx := ⟨[]⟩

/-- Errors returned by `Manager.Register`:
`invalidProvider` is the Go error `notifier cannot be nil`, and
`duplicateProvider name` is `notifier with name %s already registered`. -/
inductive RegisterError where
  | invalidProvider
  | duplicateProvider (name : String)
deriving DecidableEq

/-- Errors returned by the targeted sends:
`providerNotFound name` is the Go error `notifier %s not found`;
`fromProvider e` carries the provider's own error verbatim
(Go returns it unwrapped). -/
inductive SendError (ε : Type) where
  | providerNotFound (name : String)
  | fromProvider (e : ε)
deriving DecidableEq

/-- `Manager.Register`: rejects a nil notifier, rejects a duplicate name,
otherwise inserts the notifier under `notifier.Name()`.  Methods are
embedded in state-passing style `Manager → result × Manager` because Go
methods mutate the receiver in place. -/
def Manager.Register (m : Manager ε Ctx) (notifier : Option (Notifier ε Ctx)) :
    Option RegisterError × Manager ε Ctx :=
  match notifier with
  | none => (some .invalidProvider, m)
  | some nt =>
    match m.notifiers.lookup nt.name with
    | some _ => (some (.duplicateProvider nt.name), m)
    | none => (none, ⟨m.notifiers ++ [(nt.name, nt)]⟩)

/-- `Manager.Unregister`: `delete(m.notifiers, name)`; returns no error. -/
def Manager.Unregister (m : Manager ε Ctx) (name : String) : Manager ε Ctx :=
  ⟨m.notifiers.filter (fun p => p.1 != name)⟩

/-- `Manager.Get`: map lookup returning the notifier and a presence flag
(embedded as `Option`). -/
def Manager.Get (m : Manager ε Ctx) (name : String) :
    Option (Notifier ε Ctx) × Manager ε Ctx :=
  (m.notifiers.lookup name, m)

/-- `Manager.Send`: look up `provider`; if absent fail with the
not-found error, else return the provider's simple-text send result
verbatim (injected into the common error type by `SendError.fromProvider`). -/
def Manager.Send (m : Manager ε Ctx) (ctx : Ctx) (provider message : String) :
    Option (SendError ε) × Manager ε Ctx :=
  match (m.Get provider).1 with
  | none => (some (.providerNotFound provider), m)
  | some nt => ((nt.send ctx message).map .fromProvider, m)

/-- `Manager.SendWithOptions`: same lookup contract, delegating to the
rich-send capability. -/
def Manager.SendWithOptions (m : Manager ε Ctx) (ctx : Ctx) (provider : String)
    (msg : Message) : Option (SendError ε) × Manager ε Ctx :=
  match (m.Get provider).1 with
  | none => (some (.providerNotFound provider), m)
  | some nt => ((nt.sendWithOptions ctx msg).map .fromProvider, m)

/-- `Manager.Broadcast`: iterate the registry, invoke each provider's
simple send, and append `(name, err)` for each failure, exactly as the Go
loop appends `fmt.Errorf("%s: %w", name, err)`. -/
def Manager.Broadcast (m : Manager ε Ctx) (ctx : Ctx) (message : String) :
    List (String × ε) × Manager ε Ctx :=
  (m.notifiers.foldl (fun errs p =>
      match p.2.send ctx message with
      | some e => errs ++ [(p.1, e)]
      | none => errs) [], m)

/-- `Manager.BroadcastWithOptions`: same loop over the rich-send capability. -/
def Manager.BroadcastWithOptions (m : Manager ε Ctx) (ctx : Ctx) (msg : Message) :
    List (String × ε) × Manager ε Ctx :=
  (m.notifiers.foldl (fun errs p =>
      match p.2.sendWithOptions ctx msg with
      | some e => errs ++ [(p.1, e)]
      | none => errs) [], m)

/-- `NotificationResult` from the manager file: per-provider outcome of a
concurrent broadcast.  `Success` is `err == nil`, `Error` is the error. -/
structure NotificationResult (ε : Type) where
  Provider : String
  Success : Bool
  Error : Option ε
deriving DecidableEq

/-- The dispatch unit spawned by `BroadcastAsync` for one snapshot entry:
it performs the simple send once and produces exactly one result. -/
def asyncUnit (ctx : Ctx) (message : String) (p : String × Notifier ε Ctx) :
    NotificationResult ε :=
  let err := p.2.send ctx message
  ⟨p.1, err.isNone, err⟩

/-- The dispatch unit spawned by `BroadcastAsyncWithOptions`. -/
def asyncUnitWithOptions (ctx : Ctx) (msg : Message) (p : String × Notifier ε Ctx) :
    NotificationResult ε :=
  let err := p.2.sendWithOptions ctx msg
  ⟨p.1, err.isNone, err⟩

/-- `Manager.BroadcastAsync`: snapshots the registry under the read lock,
spawns one unit per snapshot entry, and closes the result channel after
every unit has reported.  The channel's eventual contents are embedded as
the list of per-unit results in snapshot order; the channel delivers them
in an arbitrary order, which theorems model as an arbitrary permutation
of this list. -/
def Manager.BroadcastAsync (m : Manager ε Ctx) (ctx : Ctx) (message : String) :
    List (NotificationResult ε) × Manager ε Ctx :=
  (m.notifiers.map (asyncUnit ctx message), m)

/-- `Manager.BroadcastAsyncWithOptions`: the rich-send concurrent broadcast. -/
def Manager.BroadcastAsyncWithOptions (m : Manager ε Ctx) (ctx : Ctx) (msg : Message) :
    List (NotificationResult ε) × Manager ε Ctx :=
  (m.notifiers.map (asyncUnitWithOptions ctx msg), m)

/-- `Manager.List`: the registered names, in registry order.  (Declared
after the other manager methods so that `List` in their signatures keeps
denoting the core list type.) -/
def Manager.List (m : Manager ε Ctx) : List String × Manager ε Ctx :=
  (m.notifiers.map Prod.fst, m)

/-- The per-iteration invocation record of the synchronous broadcast loop:
for every registry entry, the provider name and the outcome of its (single)
simple-send invocation. -/
def broadcastAttempts (m : Manager ε Ctx) (ctx : Ctx) (message : String) :
    List (String × Option ε) :=
  m.notifiers.map (fun p => (p.1, p.2.send ctx message))

/-- The invocation record of `BroadcastWithOptions`. -/
def broadcastAttemptsWithOptions (m : Manager ε Ctx) (ctx : Ctx) (msg : Message) :
    List (String × Option ε) :=
  m.notifiers.map (fun p => (p.1, p.2.sendWithOptions ctx msg))

/-!
Lock-event traces.  The manager guards `notifiers` with a `sync.RWMutex`.
To reason about which lock is held when a provider's send capability is
invoked, each manager operation is also embedded as the sequence of lock
events and provider-call events its body performs, in program order, as
observed by the goroutine executing that body.
-/

/-- A lock/call event: read-lock acquire/release, write-lock
acquire/release, or the start of a provider send call. -/
inductive MEvent where
  | rlock
  | runlock
  | wlock
  | wunlock
  | providerCall (provider : String)
deriving DecidableEq

/-- `Register` body: `mu.Lock()`, mutate, `mu.Unlock()`; no provider call. -/
def RegisterTrace : List MEvent := [.wlock, .wunlock]

/-- `Unregister` body: `mu.Lock()`, delete, `mu.Unlock()`. -/
def UnregisterTrace : List MEvent := [.wlock, .wunlock]

/-- `Get`/`List` bodies: `mu.RLock()`, read, `mu.RUnlock()`. -/
def GetTrace : List MEvent := [.rlock, .runlock]

/-- `Send` body: `m.Get(provider)` acquires and releases the read lock;
then, only when the lookup succeeded, `notifier.Send` is called with the
lock already released.  (`SendWithOptions` performs the same sequence.) -/
def SendTrace (m : Manager ε Ctx) (provider : String) : List MEvent :=
  [.rlock, .runlock] ++
    (match m.notifiers.lookup provider with
     | none => []
     | some _ => [.providerCall provider])

/-- `Broadcast` body: `mu.RLock()`; `defer mu.RUnlock()`; the loop calls
every provider's send; the deferred `RUnlock` runs only after the loop —
so every provider call happens with the read lock held.
(`BroadcastWithOptions` performs the same sequence.) -/
def BroadcastTrace (m : Manager ε Ctx) : List MEvent :=
  .rlock :: (m.notifiers.map (fun p => MEvent.providerCall p.1) ++ [.runlock])

/-- `BroadcastAsync` on the calling goroutine: it copies the registry under
the read lock, releases it, then spawns the units; no provider call is made
by the caller itself.  (`BroadcastAsyncWithOptions` is identical.) -/
def BroadcastAsyncSnapshotTrace : List MEvent := [.rlock, .runlock]

/-- One spawned unit of `BroadcastAsync`/`BroadcastAsyncWithOptions`: it
performs one provider call and touches no lock. -/
def BroadcastAsyncUnitTrace (provider : String) : List MEvent :=
  [.providerCall provider]

/-- `callsOutsideLock d tr` holds when, replaying `tr` starting at lock
depth `d`, every `providerCall` event occurs at lock depth `0`, i.e. with
no registry lock (read or write) held by the executing goroutine. -/
def callsOutsideLock : Nat → List MEvent → Bool
  | _, [] => true
  | d, .rlock :: r => callsOutsideLock (d + 1) r
  | d, .runlock :: r => callsOutsideLock (d - 1) r
  | d, .wlock :: r => callsOutsideLock (d + 1) r
  | d, .wunlock :: r => callsOutsideLock (d - 1) r
  | d, .providerCall _ :: r => decide (d = 0) && callsOutsideLock d r

/-!
The Slack provider (`slack.go`).  The `*slack.Client` is abstracted to a
presence flag (`clientPresent` models `client != nil`) plus an opaque
`postMessage` function standing for `client.PostMessageContext`, which
returns `some err` on failure.  Everything before the client call is
translated statement by statement.
-/

/-- `slack.AttachmentField`. -/
structure SlackAttachmentField where
  Title : String
  Value : String
  Short : Bool
deriving DecidableEq

/-- The fields of `slack.Attachment` populated by `convertAttachments`. -/
structure SlackAttachment where
  Title : String
  Text : String
  ImageURL : String
  Color : String
  Footer : String
  FooterIcon : String
  Fields : List SlackAttachmentField
deriving DecidableEq

/-- One element of the `[]slack.MsgOption` list built by
`SlackNotifier.SendWithOptions`. -/
inductive MsgOption where
  | text (s : String)
  | username (u : String)
  | iconEmoji (e : String)
  | attachments (atts : List SlackAttachment)
  | blocks (title body : String)

/-- `SlackNotifier`: configuration plus the abstracted SDK call. -/
structure SlackNotifier (Ctx : Type) where
  clientPresent : Bool
  defaultChannel : String
  username : String
  iconEmoji : String
  postMessage : Ctx → String → List MsgOption → Option String

/-- `convertAttachments`: converts generic attachments to Slack
attachments field by field. -/
def SlackNotifier.convertAttachments (atts : List Attachment) :
    List SlackAttachment :=
  atts.map (fun att =>
    { Title := att.Title
      Text := att.Text
      ImageURL := att.ImageURL
      Color := att.Color
      Footer := att.Footer
      FooterIcon := att.FooterIcon
      Fields := att.Fields.map (fun f =>
        { Title := f.Title, Value := f.Value, Short := f.Short }) })

/-- `SlackNotifier.SendWithOptions`, translated branch by branch:
nil-client guard, empty-text guard, channel defaulting and guard, option
building (including the `options = options[1:]` drop when a title turns
the message into blocks), then the client call, whose failure is wrapped
as a `NotificationError`. -/
def SlackNotifier.SendWithOptions (s : SlackNotifier Ctx) (ctx : Ctx)
    (msg : Message) : Option NotificationError :=
  if s.clientPresent = false then
    some ⟨"slack", "slack client not initialized (webhook support not yet implemented for SendWithOptions)", none⟩
  else if msg.Text = "" then
    some ⟨"slack", "message text is required", none⟩
  else
    let channel := if msg.Channel = "" then s.defaultChannel else msg.Channel
    if channel = "" then
      some ⟨"slack", "channel is required", none⟩
    else
      let opts0 := [MsgOption.text msg.Text]
      let opts1 := if s.username = "" then opts0 else opts0 ++ [MsgOption.username s.username]
      let opts2 := if s.iconEmoji = "" then opts1 else opts1 ++ [MsgOption.iconEmoji s.iconEmoji]
      let opts3 := if msg.Attachments = [] then opts2
        else opts2 ++ [MsgOption.attachments (SlackNotifier.convertAttachments msg.Attachments)]
      let opts4 := if msg.Title = "" then opts3
        else (opts3 ++ [MsgOption.blocks msg.Title msg.Text]).drop 1
      match s.postMessage ctx channel opts4 with
      | none => none
      | some apiErr => some ⟨"slack", "failed to send message", some apiErr⟩

/-- `SlackNotifier.Send`: wraps the text into a `Message` targeting the
default channel and delegates to `SendWithOptions`. -/
def SlackNotifier.Send (s : SlackNotifier Ctx) (ctx : Ctx) (message : String) :
    Option NotificationError :=
  s.SendWithOptions ctx
    { Text := message, Title := "", Priority := "", Channel := s.defaultChannel,
      Attachments := [], Metadata := [] }

/-!
The Telegram provider (`telegram.go`).  The HTTP round trip performed by
`sendRequest` is abstracted as an opaque function field receiving the API
method name and the request payload; everything before it is translated
statement by statement.
-/

/-- The JSON payload `SendWithOptions` builds for the `sendMessage` call. -/
structure TgPayload where
  chatId : String
  text : String
  parseMode : String
  disableNotification : Bool
deriving DecidableEq

/-- `TelegramNotifier`: configuration plus the abstracted HTTP call. -/
structure TelegramNotifier (Ctx : Type) where
  botToken : String
  chatID : String
  parseMode : String
  sendRequest : Ctx → String → TgPayload → Option NotificationError

/-- `TelegramNotifier.SendWithOptions`, translated branch by branch:
empty-text guard, chat-id defaulting, title formatting
(`*title*` + blank line + text), low-priority notification muting, then
the `sendMessage` request. -/
def TelegramNotifier.SendWithOptions (t : TelegramNotifier Ctx) (ctx : Ctx)
    (msg : Message) : Option NotificationError :=
  if msg.Text = "" then
    some ⟨"telegram", "message text is required", none⟩
  else
    let chatID := if msg.Channel = "" then t.chatID else msg.Channel
    let messageText :=
      if msg.Title = "" then msg.Text
      else "*" ++ msg.Title ++ "*\n\n" ++ msg.Text
    t.sendRequest ctx "sendMessage"
      ⟨chatID, messageText, t.parseMode, msg.Priority == PriorityLow⟩

/-- `TelegramNotifier.Send`: wraps the text into a `Message` targeting the
configured chat and delegates to `SendWithOptions`. -/
def TelegramNotifier.Send (t : TelegramNotifier Ctx) (ctx : Ctx)
    (message : String) : Option NotificationError :=
  t.SendWithOptions ctx
    { Text := message, Title := "", Priority := "", Channel := t.chatID,
      Attachments := [], Metadata := [] }

/-- Tagged broadcast failures: from the per-provider invocation record,
keep the failed invocations, each paired with the name of the provider
that produced the error. -/
def collectFailures (l : List (String × Option ε)) : List (String × ε) :=
  l.filterMap (fun q => q.2.map (fun e => (q.1, e)))

/-!
Concrete fixtures used by witness theorems: a provider `"a"` that always
succeeds, a provider `"b"` that always fails, a second provider claiming
the name `"a"`, and small registries over them.  Provider errors are
instantiated at `ε := String` and the context at `Ctx := Unit`.
-/

/-- A provider named `a` whose sends always succeed. -/
def ntA : Notifier String Unit :=
  { name := "a", send := fun _ _ => none, sendWithOptions := fun _ _ => none }

/-- A provider named `b` whose sends always fail with `boom`. -/
def ntB : Notifier String Unit :=
  { name := "b", send := fun _ _ => some "boom",
    sendWithOptions := fun _ _ => some "boom" }

/-- A second, distinct provider that also reports the name `a`. -/
def ntA2 : Notifier String Unit :=
  { name := "a", send := fun _ _ => some "dup",
    sendWithOptions := fun _ _ => some "dup" }

/-- A registry holding only provider `a`. -/
def mgrA : Manager String Unit := ⟨[("a", ntA)]⟩

/-- A registry holding providers `a` and `b`. -/
def mgrAB : Manager String Unit := ⟨[("a", ntA), ("b", ntB)]⟩

/-- A plain message whose body text is `hi`. -/
def msgHi : Message :=
  { Text := "hi", Title := "", Priority := "", Channel := "",
    Attachments := [], Metadata := [] }

/-- A message whose body text is empty. -/
def msgEmptyText : Message :=
  { Text := "", Title := "", Priority := "", Channel := "",
    Attachments := [], Metadata := [] }

/-- A concrete result-stream order for `mgrAB.BroadcastAsync`: provider
`b` finishes before provider `a`. -/
def outW : List (NotificationResult String) :=
  [{ Provider := "b", Success := false, Error := some "boom" },
   { Provider := "a", Success := true, Error := none }]

/-- A Slack notifier fixture with an initialised client whose SDK call
always succeeds. -/
def slackFix : SlackNotifier Unit :=
  { clientPresent := true, defaultChannel := "#general", username := "",
    iconEmoji := "", postMessage := fun _ _ _ => none }

/-- A Telegram notifier fixture whose HTTP call always succeeds. -/
def tgFix : TelegramNotifier Unit :=
  { botToken := "tok", chatID := "chat", parseMode := "Markdown",
    sendRequest := fun _ _ _ => none }

/-!
Helper lemmas about the registry representation and the broadcast loop.
-/

/-- If a name is absent from the registry list, deleting it is a no-op. -/
theorem lookup_none_filter {α : Type} (l : List (String × α)) (n : String)
    (h : l.lookup n = none) : l.filter (fun p => p.1 != n) = l := by
  induction l with
  | nil => rfl
  | cons a l ih =>
    rcases a with ⟨k, v⟩
    simp only [List.lookup] at h
    cases hk : (n == k) with
    | true => rw [hk] at h; exact absurd h (by simp)
    | false =>
      rw [hk] at h
      have hkn : (k != n) = true := by
        have h1 : ¬n = k := beq_eq_false_iff_ne.mp hk
        simpa [bne_iff_ne] using (Ne.symm h1)
      simp [List.filter_cons, hkn, ih h]

/-- If a name is absent from the registry list, it is not among the keys. -/
theorem lookup_none_not_mem {α : Type} (l : List (String × α)) (n : String)
    (h : l.lookup n = none) : n ∉ l.map Prod.fst := by
  induction l with
  | nil => simp
  | cons a l ih =>
    rcases a with ⟨k, v⟩
    simp only [List.lookup] at h
    cases hk : (n == k) with
    | true => rw [hk] at h; exact absurd h (by simp)
    | false =>
      rw [hk] at h
      have h1 : ¬n = k := beq_eq_false_iff_ne.mp hk
      simpa [h1] using ih h

/-- The error-collecting loop of the synchronous broadcasts, rewritten as
a `filterMap`: the accumulator is extended by one tagged error per failed
invocation, in iteration order. -/
theorem foldl_collect_eq {α ε : Type} (g : α → Option ε) (tag : α → String)
    (l : List α) (acc : List (String × ε)) :
    l.foldl (fun errs p =>
        match g p with
        | some e => errs ++ [(tag p, e)]
        | none => errs) acc
      = acc ++ l.filterMap (fun p => (g p).map (fun e => (tag p, e))) := by
  induction l generalizing acc with
  | nil => simp
  | cons p l ih => cases hg : g p <;> simp [hg, ih, List.filterMap_cons]

/-- The number of tagged failures equals the number of failed invocations. -/
theorem collectFailures_length {ε : Type} (l : List (String × Option ε)) :
    (collectFailures l).length = (l.filter (fun q => q.2.isSome)).length := by
  induction l with
  | nil => rfl
  | cons q l ih =>
    cases hq : q.2 <;>
      simp [collectFailures, List.filterMap_cons, List.filter, hq] <;>
      simpa [collectFailures] using ih

/-- No tagged failures are collected exactly when every invocation
succeeded. -/
theorem collectFailures_eq_nil {ε : Type} (l : List (String × Option ε)) :
    collectFailures l = [] ↔ ∀ q ∈ l, q.2 = none := by
  simp [collectFailures, List.filterMap_eq_nil_iff, Option.map_eq_none']

/-!
Claim theorems.
-/

/-- C3: if a provider is already registered under identity `n`, a second
`Register` call with a provider whose identity is also `n` fails with the
duplicate-provider error and leaves the registry completely unchanged:
the entry for `n` still maps to the originally registered provider and
the registry size is unchanged. -/
theorem register_duplicate_rejected {ε Ctx : Type} (m : Manager ε Ctx)
    (n : String) (p q : Notifier ε Ctx)
    (hp : m.notifiers.lookup n = some p) (hq : q.name = n) :
    (m.Register (some q)).1 = some (RegisterError.duplicateProvider n) ∧
    (m.Register (some q)).2 = m ∧
    ((m.Register (some q)).2).notifiers.lookup n = some p ∧
    ((m.Register (some q)).2).notifiers.length = m.notifiers.length := by
  subst hq
  refine ⟨?_, ?_, ?_, ?_⟩ <;> simp [Manager.Register, hp]

/-- Witness for C3 at a concrete registry: `mgrA` holds `a`; registering
`ntA2` (also named `a`) is rejected and the registry still maps `a` to
`ntA`. -/
theorem register_duplicate_rejected_witness :
    (mgrA.Register (some ntA2)).1 = some (RegisterError.duplicateProvider "a") ∧
    (mgrA.Register (some ntA2)).2 = mgrA ∧
    ((mgrA.Register (some ntA2)).2).notifiers.lookup "a" = some ntA ∧
    ((mgrA.Register (some ntA2)).2).notifiers.length = mgrA.notifiers.length :=
  register_duplicate_rejected mgrA "a" ntA ntA2 rfl rfl

/-- C7: `Register` called with a nil provider reference fails with the
invalid-provider error and leaves the registry unchanged, for every
registry state. -/
theorem register_nil_invalid {ε Ctx : Type} (m : Manager ε Ctx) :
    m.Register none = (some RegisterError.invalidProvider, m) := rfl

/-- C9: only `Register` and `Unregister` mutate the registry — `Get`,
`List`, `Send`, `SendWithOptions`, `Broadcast`, `BroadcastWithOptions`,
`BroadcastAsync` and `BroadcastAsyncWithOptions` all leave the registry
mapping exactly as it was, for every input and outcome. -/
theorem readonly_ops_preserve_registry {ε Ctx : Type} (m : Manager ε Ctx)
    (ctx : Ctx) (name message : String) (msg : Message) :
    (m.Get name).2 = m ∧ (Manager.List m).2 = m ∧
    (m.Send ctx name message).2 = m ∧
    (m.SendWithOptions ctx name msg).2 = m ∧
    (m.Broadcast ctx message).2 = m ∧
    (m.BroadcastWithOptions ctx msg).2 = m ∧
    (m.BroadcastAsync ctx message).2 = m ∧
    (m.BroadcastAsyncWithOptions ctx msg).2 = m := by
  refine ⟨rfl, rfl, ?_, ?_, rfl, rfl, rfl, rfl⟩ <;>
    cases h : m.notifiers.lookup name <;>
      simp [Manager.Send, Manager.SendWithOptions, Manager.Get, h]

/-- C10: on an empty registry, `Broadcast` (and `BroadcastWithOptions`)
returns an empty error sequence, and `BroadcastAsync` produces a result
stream that closes after yielding zero results: its contents are empty and
any stream order the channel could deliver is the empty one. -/
theorem broadcast_empty_registry {ε Ctx : Type} (ctx : Ctx) (message : String)
    (msg : Message) :
    ((NewManager ε Ctx).Broadcast ctx message).1 = [] ∧
    ((NewManager ε Ctx).BroadcastWithOptions ctx msg).1 = [] ∧
    ((NewManager ε Ctx).BroadcastAsync ctx message).1 = [] ∧
    (∀ out : List (NotificationResult ε),
      out.Perm ((NewManager ε Ctx).BroadcastAsync ctx message).1 → out = []) := by
  refine ⟨rfl, rfl, rfl, ?_⟩
  intro out h
  exact h.eq_nil

/-- Witness for C10: the empty manager broadcasts to nobody and the empty
stream order is the only one. -/
theorem broadcast_empty_registry_witness :
    ((NewManager String Unit).BroadcastAsync () "hi").1 = [] ∧
    ([] : List (NotificationResult String)) = [] :=
  ⟨(broadcast_empty_registry () "hi" msgHi).2.2.1,
   (broadcast_empty_registry () "hi" msgHi).2.2.2 [] (List.Perm.refl _)⟩

/-- C4: `Send` fails with the provider-not-found error when no provider is
registered under the name — and its trace shows no provider call is made —
and otherwise returns exactly the looked-up provider's simple-text send
result, success or error, verbatim; `SendWithOptions` obeys the same
lookup contract for the rich-send capability. -/
theorem send_lookup_contract {ε Ctx : Type} (m : Manager ε Ctx) (ctx : Ctx)
    (name message : String) (msg : Message) :
    ((m.Get name).1 = none →
      (m.Send ctx name message).1 = some (SendError.providerNotFound name) ∧
      (m.SendWithOptions ctx name msg).1 = some (SendError.providerNotFound name) ∧
      SendTrace m name = [MEvent.rlock, MEvent.runlock]) ∧
    (∀ nt : Notifier ε Ctx, (m.Get name).1 = some nt →
      (m.Send ctx name message).1 = (nt.send ctx message).map SendError.fromProvider ∧
      (m.SendWithOptions ctx name msg).1
        = (nt.sendWithOptions ctx msg).map SendError.fromProvider) := by
  constructor
  · intro h
    have h2 : m.notifiers.lookup name = none := h
    refine ⟨?_, ?_, ?_⟩ <;>
      simp [Manager.Send, Manager.SendWithOptions, Manager.Get, SendTrace, h2]
  · intro nt h
    have h2 : m.notifiers.lookup name = some nt := h
    exact ⟨by simp [Manager.Send, Manager.Get, h2],
      by simp [Manager.SendWithOptions, Manager.Get, h2]⟩

/-- Witness for C4: on `mgrA`, sending to the unregistered name `missing`
fails with not-found and performs no provider call; sending to `a` returns
`ntA`'s own result. -/
theorem send_lookup_contract_witness :
    ((mgrA.Send () "missing" "hi").1 = some (SendError.providerNotFound "missing") ∧
     (mgrA.SendWithOptions () "missing" msgHi).1
        = some (SendError.providerNotFound "missing") ∧
     SendTrace mgrA "missing" = [MEvent.rlock, MEvent.runlock]) ∧
    ((mgrA.Send () "a" "hi").1 = (ntA.send () "hi").map SendError.fromProvider ∧
     (mgrA.SendWithOptions () "a" msgHi).1
        = (ntA.sendWithOptions () msgHi).map SendError.fromProvider) :=
  ⟨(send_lookup_contract mgrA () "missing" "hi" msgHi).1 rfl,
   (send_lookup_contract mgrA () "a" "hi" msgHi).2 ntA rfl⟩

/-- C5: `Unregister` is idempotent and total: on an absent name it
produces no error (its type has none) and leaves the registry unchanged;
unregistering twice equals unregistering once; and after a successful
`Register p` followed by `Unregister p.name` the registry is restored to
its prior state, `List` no longer contains the name and `Get` reports
absent. -/
theorem unregister_idempotent_total {ε Ctx : Type} (m : Manager ε Ctx)
    (name : String) (p : Notifier ε Ctx)
    (habs : m.notifiers.lookup name = none) (hname : p.name = name) :
    m.Unregister name = m ∧
    (m.Unregister name).Unregister name = m.Unregister name ∧
    ((m.Register (some p)).2).Unregister name = m ∧
    name ∉ (Manager.List (((m.Register (some p)).2).Unregister name)).1 ∧
    ((((m.Register (some p)).2).Unregister name).Get name).1 = none := by
  subst hname
  have hfilter := lookup_none_filter m.notifiers p.name habs
  have h1 : m.Unregister p.name = m := by
    show (⟨m.notifiers.filter (fun q => q.1 != p.name)⟩ : Manager ε Ctx) = m
    rw [hfilter]
  have hreg : (m.Register (some p)).2 = ⟨m.notifiers ++ [(p.name, p)]⟩ := by
    simp [Manager.Register, habs]
  have h3 : ((m.Register (some p)).2).Unregister p.name = m := by
    rw [hreg]
    show (⟨(m.notifiers ++ [(p.name, p)]).filter (fun q => q.1 != p.name)⟩ :
      Manager ε Ctx) = m
    rw [List.filter_append, hfilter]
    simp
  refine ⟨h1, by rw [h1, h1], h3, ?_, ?_⟩
  · rw [h3]
    exact lookup_none_not_mem m.notifiers p.name habs
  · rw [h3]
    exact habs

/-- Witness for C5 at a concrete registry: on `mgrA` (holding only `a`),
unregistering the absent name `b` changes nothing, and registering `ntB`
then unregistering `b` restores `mgrA`. -/
theorem unregister_idempotent_total_witness :
    mgrA.Unregister "b" = mgrA ∧
    (mgrA.Unregister "b").Unregister "b" = mgrA.Unregister "b" ∧
    ((mgrA.Register (some ntB)).2).Unregister "b" = mgrA ∧
    "b" ∉ (Manager.List (((mgrA.Register (some ntB)).2).Unregister "b")).1 ∧
    ((((mgrA.Register (some ntB)).2).Unregister "b").Get "b").1 = none :=
  unregister_idempotent_total mgrA "b" ntB rfl rfl

/-- C2: for every registry, `Broadcast` (and `BroadcastWithOptions`)
invokes every registered provider's send capability exactly once — the
invocation record lists exactly the registered names, so no provider is
skipped because an earlier one failed — and returns exactly the failed
invocations, each tagged with the identity of the provider that produced
the error; the returned sequence has one entry per failing provider and is
empty exactly when every provider succeeded. -/
theorem broadcast_invokes_all_collects_failures {ε Ctx : Type}
    (m : Manager ε Ctx) (ctx : Ctx) (message : String) (msg : Message) :
    ((broadcastAttempts m ctx message).map Prod.fst = (Manager.List m).1) ∧
    ((m.Broadcast ctx message).1 = collectFailures (broadcastAttempts m ctx message)) ∧
    ((m.Broadcast ctx message).1.length
        = ((broadcastAttempts m ctx message).filter (fun q => q.2.isSome)).length) ∧
    (((m.Broadcast ctx message).1 = [])
        ↔ ∀ p ∈ m.notifiers, p.2.send ctx message = none) ∧
    ((broadcastAttemptsWithOptions m ctx msg).map Prod.fst = (Manager.List m).1) ∧
    ((m.BroadcastWithOptions ctx msg).1
        = collectFailures (broadcastAttemptsWithOptions m ctx msg)) ∧
    ((m.BroadcastWithOptions ctx msg).1.length
        = ((broadcastAttemptsWithOptions m ctx msg).filter (fun q => q.2.isSome)).length) ∧
    (((m.BroadcastWithOptions ctx msg).1 = [])
        ↔ ∀ p ∈ m.notifiers, p.2.sendWithOptions ctx msg = none) := by
  have hb : (m.Broadcast ctx message).1
      = collectFailures (broadcastAttempts m ctx message) := by
    have h := foldl_collect_eq (fun p : String × Notifier ε Ctx => p.2.send ctx message)
      Prod.fst m.notifiers []
    simpa [Manager.Broadcast, collectFailures, broadcastAttempts,
      List.filterMap_map, Function.comp] using h
  have hbo : (m.BroadcastWithOptions ctx msg).1
      = collectFailures (broadcastAttemptsWithOptions m ctx msg) := by
    have h := foldl_collect_eq
      (fun p : String × Notifier ε Ctx => p.2.sendWithOptions ctx msg)
      Prod.fst m.notifiers []
    simpa [Manager.BroadcastWithOptions, collectFailures, broadcastAttemptsWithOptions,
      List.filterMap_map, Function.comp] using h
  refine ⟨?_, hb, ?_, ?_, ?_, hbo, ?_, ?_⟩
  · simp [broadcastAttempts, Manager.List, List.map_map, Function.comp]
  · rw [hb, collectFailures_length]
  · rw [hb, collectFailures_eq_nil]
    constructor
    · intro h p hp
      exact h (p.1, p.2.send ctx message) (List.mem_map_of_mem _ hp)
    · intro h q hq
      obtain ⟨p, hp, rfl⟩ := List.mem_map.mp hq
      exact h p hp
  · simp [broadcastAttemptsWithOptions, Manager.List, List.map_map, Function.comp]
  · rw [hbo, collectFailures_length]
  · rw [hbo, collectFailures_eq_nil]
    constructor
    · intro h p hp
      exact h (p.1, p.2.sendWithOptions ctx msg) (List.mem_map_of_mem _ hp)
    · intro h q hq
      obtain ⟨p, hp, rfl⟩ := List.mem_map.mp hq
      exact h p hp

/-- C1: a concurrent broadcast yields exactly one result per snapshotted
provider before its stream closes, and the multiset of provider identities
across the results equals the registered identities, for every delivery
order of the result channel and every outcome of the individual sends;
likewise for `BroadcastAsyncWithOptions`. -/
theorem broadcastAsync_results_complete {ε Ctx : Type} (m : Manager ε Ctx)
    (ctx : Ctx) (message : String) (msg : Message)
    (out outOpt : List (NotificationResult ε))
    (h : out.Perm (m.BroadcastAsync ctx message).1)
    (hOpt : outOpt.Perm (m.BroadcastAsyncWithOptions ctx msg).1) :
    out.length = m.notifiers.length ∧
    (out.map NotificationResult.Provider).Perm ((Manager.List m).1) ∧
    outOpt.length = m.notifiers.length ∧
    (outOpt.map NotificationResult.Provider).Perm ((Manager.List m).1) := by
  have hmap := h.map NotificationResult.Provider
  have hmapOpt := hOpt.map NotificationResult.Provider
  rw [Manager.BroadcastAsync] at hmap
  rw [Manager.BroadcastAsyncWithOptions] at hmapOpt
  rw [List.map_map] at hmap hmapOpt
  refine ⟨?_, ?_, ?_, ?_⟩
  · simpa [Manager.BroadcastAsync] using h.length_eq
  · simpa [Manager.List, asyncUnit, Function.comp] using hmap
  · simpa [Manager.BroadcastAsyncWithOptions] using hOpt.length_eq
  · simpa [Manager.List, asyncUnitWithOptions, Function.comp] using hmapOpt

/-- Witness for C1: on the two-provider registry `mgrAB`, the stream order
`outW` (a permutation of the dispatched results with `b` first) carries
exactly two results whose identities are a permutation of the registered
names. -/
theorem broadcastAsync_results_complete_witness :
    outW.length = mgrAB.notifiers.length ∧
    (outW.map NotificationResult.Provider).Perm ((Manager.List mgrAB).1) ∧
    outW.length = mgrAB.notifiers.length ∧
    (outW.map NotificationResult.Provider).Perm ((Manager.List mgrAB).1) :=
  broadcastAsync_results_complete mgrAB () "hi" msgHi outW outW
    (by decide) (by decide)

/-- C6 counterexample: the claim says no registry lock is ever held across
a provider's send call in any manager operation, but the synchronous
`Broadcast` acquires the read lock and only releases it (by `defer`) after
the loop of provider sends; on the one-provider registry `mgrA` its trace
performs the provider call at lock depth 1. -/
theorem broadcast_holds_lock_counterexample :
    callsOutsideLock 0 (BroadcastTrace mgrA) = false := by decide

/-- C6 amended: the targeted send and each concurrent-broadcast unit run
with the registry lock released before the provider call begins (the async
broadcast releases the read lock after copying the snapshot, before
dispatch), but the synchronous `Broadcast`/`BroadcastWithOptions` hold the
registry read lock across every provider call whenever the registry is
non-empty, so a slow provider there delays `Register` and `Unregister`
(writers), though not concurrent readers. -/
theorem lock_discipline_amended {ε Ctx : Type} (m : Manager ε Ctx)
    (name : String) :
    callsOutsideLock 0 (SendTrace m name) = true ∧
    callsOutsideLock 0 BroadcastAsyncSnapshotTrace = true ∧
    callsOutsideLock 0 (BroadcastAsyncUnitTrace name) = true ∧
    (m.notifiers ≠ [] → callsOutsideLock 0 (BroadcastTrace m) = false) := by
  refine ⟨?_, rfl, rfl, ?_⟩
  · cases h : m.notifiers.lookup name <;> simp [SendTrace, h, callsOutsideLock]
  · intro hne
    cases hm : m.notifiers with
    | nil => exact absurd hm hne
    | cons p l => simp [BroadcastTrace, hm, callsOutsideLock]

/-- Witness for C6 amended, on the one-provider registry `mgrA`. -/
theorem lock_discipline_amended_witness :
    callsOutsideLock 0 (SendTrace mgrA "a") = true ∧
    callsOutsideLock 0 BroadcastAsyncSnapshotTrace = true ∧
    callsOutsideLock 0 (BroadcastAsyncUnitTrace "a") = true ∧
    callsOutsideLock 0 (BroadcastTrace mgrA) = false :=
  ⟨(lock_discipline_amended mgrA "a").1,
   (lock_discipline_amended mgrA "a").2.1,
   (lock_discipline_amended mgrA "a").2.2.1,
   (lock_discipline_amended mgrA "a").2.2.2 (List.cons_ne_nil _ _)⟩

/-- C8: for every message with empty body text, the rich-send capability
of the Slack and of the Telegram provider fails rather than succeeding or
silently doing nothing: Telegram always fails with its text-required
validation error, and Slack fails in every client state — with its
text-required validation error whenever its client is initialised. -/
theorem sendWithOptions_empty_text_fails {Ctx : Type} (s : SlackNotifier Ctx)
    (t : TelegramNotifier Ctx) (ctx : Ctx) (msg : Message)
    (h : msg.Text = "") :
    (s.SendWithOptions ctx msg).isSome = true ∧
    t.SendWithOptions ctx msg = some ⟨"telegram", "message text is required", none⟩ ∧
    (s.clientPresent = true →
      s.SendWithOptions ctx msg = some ⟨"slack", "message text is required", none⟩) := by
  refine ⟨?_, ?_, ?_⟩
  · cases hc : s.clientPresent <;> simp [SlackNotifier.SendWithOptions, hc, h]
  · simp [TelegramNotifier.SendWithOptions, h]
  · intro hc
    simp [SlackNotifier.SendWithOptions, hc, h]

/-- Witness for C8 on concrete providers and the empty-text message. -/
theorem sendWithOptions_empty_text_fails_witness :
    (slackFix.SendWithOptions () msgEmptyText).isSome = true ∧
    tgFix.SendWithOptions () msgEmptyText
      = some ⟨"telegram", "message text is required", none⟩ ∧
    (slackFix.clientPresent = true →
      slackFix.SendWithOptions () msgEmptyText
        = some ⟨"slack", "message text is required", none⟩) :=
  sendWithOptions_empty_text_fails slackFix tgFix () msgEmptyText rfl

end notify
